import Mathlib

/-!
Shallow embedding of the soroban-profit-distribution contract
(src/src/lib.rs) and proofs about its specification claims.

The contract is a pooled-escrow state machine with three operations:
one-time configuration setup, a deposit that records a single pool
record, and a winner-take-all distribution.  Storage slots are modelled
as explicit fields of a `Storage` structure; the external token
collaborator is modelled as an acceptance oracle in the environment, and
each operation returns `Except ContractError (Storage × List TokenCall)`
where the list records the token-contract invocations the operation
performed.  A `.error` result models a Soroban panic/trap: the whole
call aborts and no storage write or token transfer takes effect.
-/

namespace ProfitDistribution

/-- Soroban `Identifier` (soroban_auth): either a classic account or a
contract id.  Both underlying id spaces are modelled as `Nat` since the
contract only compares identifiers for equality. -/
inductive Identifier where
  | Account (id : Nat)
  | Contract (id : Nat)
  deriving DecidableEq, Repr

/-- `BytesN<32>` token-contract identifiers, modelled as `Nat` (opaque,
compared only for equality). -/
abbrev Bytes32 := Nat

/-- `TimeBoundKind` from lib.rs: `Before | After`. -/
inductive TimeBoundKind where
  | Before
  | After
  deriving DecidableEq, Repr

/-- `TimeBound` from lib.rs: a kind and a `u64` timestamp. -/
structure TimeBound where
  kind : TimeBoundKind
  timestamp : Nat
  deriving DecidableEq, Repr

/-- `DepositBalance` from lib.rs: the single pool record, with the
field names of the source (including the `depositers` spelling). -/
structure DepositBalance where
  token : Bytes32
  amount : Int
  depositers : List Identifier
  time_bound : TimeBound
  deriving DecidableEq, Repr

/-- The contract's storage slots (the `DataKey` entries the code
actually reads or writes).  `none` models an absent slot. -/
structure Storage where
  admin : Option Identifier := none
  started : Option Nat := none
  meetupDate : Option Nat := none
  depositFee : Option Int := none
  token : Option Bytes32 := none
  balance : Option DepositBalance := none
  deriving DecidableEq, Repr

/-- A call made to the external token collaborator.  `xferFrom` is the
inbound transfer of `deposit_to_contract` (token contract, source
identity, destination identity, amount); `xfer` is the outbound
transfer of `distribute_from_contract_to_account` (token contract,
destination identity, amount). -/
inductive TokenCall where
  | xferFrom (tok : Bytes32) (src : Identifier) (dst : Identifier) (amount : Int)
  | xfer (tok : Bytes32) (dst : Identifier) (amount : Int)
  deriving DecidableEq, Repr

/-- The ways a contract invocation can abort (each corresponds to a
panic/trap site in lib.rs):
* `alreadyInit`: the `assert!(is_initialized, "Contract already
  initialized")` in the initialization entry point fired;
* `invalidAmount`: `panic!("negative amount is not allowed")`;
* `transferFailed`: the external token collaborator rejected a transfer;
* `notEligible`: the invoker is absent from the pool record's
  depositers;
* `notFound`: `get_unchecked(DataKey::Balance)` on an absent slot;
* `notInit`: `get_token`'s `.expect("not initialized")` on an absent
  `DataKey::Token` slot. -/
inductive ContractError where
  | alreadyInit
  | invalidAmount
  | transferFailed
  | notEligible
  | notFound
  | notInit
  deriving DecidableEq, Repr

/-- The ambient host environment: the invoking identity
(`env.invoker()`), the ledger timestamp (`env.ledger().timestamp()`),
the current contract's id (`env.get_current_contract()`), and the
external token collaborator's decision on whether to accept a given
transfer call. -/
structure Env where
  invoker : Identifier
  timestamp : Nat
  currentContract : Nat
  tokenAccepts : TokenCall → Bool

/-- `is_initialized` from lib.rs: `env.storage().has(DataKey::Admin)`. -/
def is_initialized (s : Storage) : Bool :=
  s.admin.isSome

/-- `get_ledger_timestamp` from lib.rs. -/
def get_ledger_timestamp (env : Env) : Nat :=
  env.timestamp

/-- `get_contract_id` from lib.rs:
`Identifier::Contract(env.get_current_contract())`. -/
def get_contract_id (env : Env) : Identifier :=
  Identifier.Contract env.currentContract

/-- `get_token` from lib.rs:
`env.storage().get(DataKey::Token).expect("not initialized").unwrap()`.
Fails with `notInit` when the `Token` slot is absent. -/
def get_token (s : Storage) : Except ContractError Bytes32 :=
  match s.token with
  | none => .error .notInit
  | some tok => .ok tok

/-- `deposit_to_contract` from lib.rs: resolves the configured token
and calls `client.xfer_from(&Signature::Invoker, &nonce, user,
&get_contract_id(env), amount)` on it.  The collaborator may reject the
transfer, which aborts the call with `transferFailed`. -/
def deposit_to_contract (env : Env) (s : Storage) (user : Identifier)
    (amount : Int) : Except ContractError TokenCall :=
  match get_token s with
  | .error e => .error e
  | .ok tok =>
    let call := TokenCall.xferFrom tok user (get_contract_id env) amount
    if env.tokenAccepts call then .ok call else .error .transferFailed

/-- `distribute_from_contract_to_account` from lib.rs: resolves the
configured token and calls `client.xfer(&Signature::Invoker, &nonce,
user, amount)` on it. -/
def distribute_from_contract_to_account (env : Env) (s : Storage)
    (user : Identifier) (amount : Int) : Except ContractError TokenCall :=
  match get_token s with
  | .error e => .error e
  | .ok tok =>
    let call := TokenCall.xfer tok user amount
    if env.tokenAccepts call then .ok call else .error .transferFailed

/-- The `initialize` entry point of `ProfitDistributionContract`
(lib.rs lines 87-101), translated literally: `assert!(is_initialized
(&env), "Contract already initialized")` aborts when `is_initialized`
is FALSE, and on the surviving path all five configuration slots are
written (Started from the ledger timestamp). -/
def initContract (env : Env) (s : Storage) (admin : Identifier)
    (meetup_date : Nat) (deposit_fee : Int) (token : Bytes32) :
    Except ContractError Storage :=
  if is_initialized s then
    .ok { s with
          admin := some admin
          started := some (get_ledger_timestamp env)
          meetupDate := some meetup_date
          depositFee := some deposit_fee
          token := some token }
  else
    .error .alreadyInit

/-- The `deposit` entry point of `ProfitDistributionContract`
(lib.rs lines 103-132): reject negative amounts, perform the inbound
transfer via `deposit_to_contract`, then overwrite the
`DataKey::Balance` slot with a record built from exactly the call's
arguments. -/
def deposit (env : Env) (s : Storage) (token : Bytes32) (amount : Int)
    (depositers : List Identifier) (time_bound : TimeBound) :
    Except ContractError (Storage × List TokenCall) :=
  if amount < 0 then
    .error .invalidAmount
  else
    match deposit_to_contract env s env.invoker amount with
    | .error e => .error e
    | .ok call =>
      let record : DepositBalance :=
        { token := token, amount := amount,
          depositers := depositers, time_bound := time_bound }
      .ok ({ s with balance := some record }, [call])

/-- The `distribute` entry point of `ProfitDistributionContract`
(lib.rs lines 134-153): read the pool record (`get_unchecked` aborts
with `notFound` when absent), check that the invoker is in
`depositers` (otherwise `notEligible`), transfer the whole recorded
amount to the invoker, then remove the `Balance` slot. -/
def distribute (env : Env) (s : Storage) :
    Except ContractError (Storage × List TokenCall) :=
  match s.balance with
  | none => .error .notFound
  | some bal =>
    let attendee_id := env.invoker
    if bal.depositers.contains attendee_id then
      match distribute_from_contract_to_account env s attendee_id bal.amount with
      | .error e => .error e
      | .ok call => .ok ({ s with balance := none }, [call])
    else
      .error .notEligible

/-! Concrete fixtures used by witness theorems. -/

/-- A sample time bound. -/
def tbW : TimeBound := { kind := .Before, timestamp := 1000 }

/-- Another sample time bound. -/
def tbW2 : TimeBound := { kind := .After, timestamp := 2000 }

/-- An environment whose invoker is account 0 and whose token
collaborator accepts every transfer. -/
def envA : Env :=
  { invoker := .Account 0, timestamp := 5, currentContract := 99,
    tokenAccepts := fun _ => true }

/-- Like `envA` but invoked by account 1. -/
def envB : Env :=
  { invoker := .Account 1, timestamp := 6, currentContract := 99,
    tokenAccepts := fun _ => true }

/-- Like `envA` but invoked by account 2. -/
def envC : Env :=
  { invoker := .Account 2, timestamp := 7, currentContract := 99,
    tokenAccepts := fun _ => true }

/-- An environment whose token collaborator rejects every transfer. -/
def envRej : Env :=
  { invoker := .Account 0, timestamp := 5, currentContract := 99,
    tokenAccepts := fun _ => false }

/-- A pool record: 100 units, depositers accounts 0 and 1, recorded
token 7. -/
def balW : DepositBalance :=
  { token := 7, amount := 100, depositers := [.Account 0, .Account 1],
    time_bound := tbW }

/-- An initialized storage holding `balW` and configured token 7. -/
def sW : Storage :=
  { admin := some (.Account 9), started := some 1, meetupDate := some 50,
    depositFee := some 2, token := some 7, balance := some balW }

/-- An initialized storage with no pool record. -/
def sCfg : Storage :=
  { admin := some (.Account 9), started := some 1, meetupDate := some 50,
    depositFee := some 2, token := some 7, balance := none }

/-! Inversion lemmas shared by several claim proofs. -/

/-- Inversion for a successful `deposit`: the result state is the input
state with the `Balance` slot overwritten by a record built from the
call arguments, and the single emitted token call is an inbound
`xfer_from` on the configured token. -/
theorem deposit_ok_inv (env : Env) (s s' : Storage) (t : Bytes32) (a : Int)
    (d : List Identifier) (tb : TimeBound) (cs : List TokenCall)
    (h : deposit env s t a d tb = .ok (s', cs)) :
    s' = { s with balance := some ⟨t, a, d, tb⟩ } ∧
    ∃ ct, s.token = some ct ∧
      cs = [TokenCall.xferFrom ct env.invoker (get_contract_id env) a] := by
  by_cases hneg : a < 0
  · simp [deposit, hneg] at h
  · cases htok : s.token with
    | none => simp [deposit, deposit_to_contract, get_token, hneg, htok] at h
    | some ct =>
      by_cases hacc :
          env.tokenAccepts
            (TokenCall.xferFrom ct env.invoker (get_contract_id env) a) = true
      · simp [deposit, deposit_to_contract, get_token, hneg, htok, hacc] at h
        exact ⟨h.1.symm, ct, rfl, h.2.symm⟩
      · simp [deposit, deposit_to_contract, get_token, hneg, htok, hacc] at h

/-- Inversion for a successful `distribute`: there was a pool record
containing the invoker, the result state is the input state with the
`Balance` slot removed, and the single emitted token call is an
outbound `xfer` of the whole recorded amount on the configured
token. -/
theorem distribute_ok_inv (env : Env) (s s' : Storage) (cs : List TokenCall)
    (h : distribute env s = .ok (s', cs)) :
    ∃ bal ct, s.balance = some bal ∧ s.token = some ct ∧
      bal.depositers.contains env.invoker = true ∧
      s' = { s with balance := none } ∧
      cs = [TokenCall.xfer ct env.invoker bal.amount] := by
  cases hbal : s.balance with
  | none => simp [distribute, hbal] at h
  | some bal =>
    by_cases helig : bal.depositers.contains env.invoker = true
    · have hmem : env.invoker ∈ bal.depositers := by simpa using helig
      cases htok : s.token with
      | none =>
        simp [distribute, distribute_from_contract_to_account, get_token,
              hbal, hmem, htok] at h
      | some ct =>
        by_cases hacc :
            env.tokenAccepts (TokenCall.xfer ct env.invoker bal.amount) = true
        · simp [distribute, distribute_from_contract_to_account, get_token,
                hbal, hmem, htok, hacc] at h
          exact ⟨bal, ct, rfl, rfl, helig, h.1.symm, h.2.symm⟩
        · simp [distribute, distribute_from_contract_to_account, get_token,
                hbal, hmem, htok, hacc] at h
    · have hmem : env.invoker ∉ bal.depositers := by simpa using helig
      simp [distribute, hbal, hmem] at h

/-- A completely fresh (uninitialized) storage: every slot absent. -/
def sEmpty : Storage := {}

/-- Claim C1 (code-bug evidence): the guard in the initialization entry
point is inverted.  On a fresh contract the very first call aborts with
the "Contract already initialized" assertion, and on a storage whose
Configuration already exists a second call SUCCEEDS and overwrites all
five Configuration fields — the opposite of the claimed behavior that a
second call fails with AlreadyInitialized leaving Configuration
unchanged. -/
theorem initContract_guard_inverted :
    initContract envA sEmpty (.Account 0) 10 2 7 = .error .alreadyInit ∧
    initContract envA sCfg (.Account 1) 11 3 8 =
      .ok { admin := some (.Account 1), started := some 5,
            meetupDate := some 11, depositFee := some 3,
            token := some 8, balance := none } :=
  ⟨rfl, rfl⟩

/-- Claim C2: when a pool record exists whose depositers contain the
invoker (and the configured token collaborator accepts the outbound
transfer), distribute emits one transfer of the ENTIRE recorded amount
to the invoker and returns the state with the Balance slot removed; on
that resulting state any further distribute call, by any invoker, aborts
with notFound.  An aborted call has no state or transfer effect. -/
theorem distribute_single_claim_exhausts
    (env env2 : Env) (s : Storage) (bal : DepositBalance) (ct : Bytes32)
    (hbal : s.balance = some bal)
    (helig : bal.depositers.contains env.invoker = true)
    (htok : s.token = some ct)
    (hacc : env.tokenAccepts (TokenCall.xfer ct env.invoker bal.amount) = true) :
    distribute env s =
      .ok ({ s with balance := none },
           [TokenCall.xfer ct env.invoker bal.amount]) ∧
    distribute env2 { s with balance := none } = .error .notFound := by
  have hmem : env.invoker ∈ bal.depositers := by simpa using helig
  refine ⟨?_, rfl⟩
  simp [distribute, distribute_from_contract_to_account, get_token,
        hbal, hmem, htok, hacc]

/-- Witness for C2: account 0 claims the 100-unit pool of `sW` and a
subsequent call by account 1 finds no record. -/
theorem distribute_single_claim_exhausts_w :
    (sW.balance = some balW ∧
     balW.depositers.contains envA.invoker = true ∧
     sW.token = some 7 ∧
     envA.tokenAccepts (TokenCall.xfer 7 envA.invoker balW.amount) = true) ∧
    (distribute envA sW =
       .ok ({ sW with balance := none },
            [TokenCall.xfer 7 envA.invoker balW.amount]) ∧
     distribute envB { sW with balance := none } = .error .notFound) :=
  ⟨⟨rfl, rfl, rfl, rfl⟩,
   distribute_single_claim_exhausts envA envB sW balW 7 rfl rfl rfl rfl⟩

/-- Claim C3: the second of two successful deposit calls fully replaces
the first call's pool record with its own four argument values, and any
identity absent from the second depositers list is not eligible to
distribute afterwards. -/
theorem deposit_replaces_prior_record
    (env1 env2 : Env) (s s1 s2 : Storage)
    (t1 t2 : Bytes32) (a1 a2 : Int) (d1 d2 : List Identifier)
    (tb1 tb2 : TimeBound) (c1 c2 : List TokenCall)
    (h1 : deposit env1 s t1 a1 d1 tb1 = .ok (s1, c1))
    (h2 : deposit env2 s1 t2 a2 d2 tb2 = .ok (s2, c2)) :
    s2.balance = some ⟨t2, a2, d2, tb2⟩ ∧
    ∀ env3 : Env, d2.contains env3.invoker = false →
      distribute env3 s2 = .error .notEligible := by
  obtain ⟨hs2, -⟩ := deposit_ok_inv env2 s1 s2 t2 a2 d2 tb2 c2 h2
  subst hs2
  refine ⟨rfl, ?_⟩
  intro env3 hni
  have hmem : env3.invoker ∉ d2 := by simpa using hni
  simp [distribute, hmem]

/-- Witness for C3: deposit of 100 for account 0 then deposit of 50 for
account 1; the surviving record is the second, and account 0 (the
invoker of `envA`) is no longer eligible. -/
theorem deposit_replaces_prior_record_w :
    (deposit envA sCfg 7 100 [.Account 0] tbW =
       .ok ({ sCfg with balance := some ⟨7, 100, [.Account 0], tbW⟩ },
            [TokenCall.xferFrom 7 (.Account 0) (.Contract 99) 100]) ∧
     deposit envB { sCfg with balance := some ⟨7, 100, [.Account 0], tbW⟩ }
         7 50 [.Account 1] tbW2 =
       .ok ({ sCfg with balance := some ⟨7, 50, [.Account 1], tbW2⟩ },
            [TokenCall.xferFrom 7 (.Account 1) (.Contract 99) 50])) ∧
    (({ sCfg with balance := some ⟨7, 50, [.Account 1], tbW2⟩ } : Storage).balance
       = some ⟨7, 50, [.Account 1], tbW2⟩ ∧
     ∀ env3 : Env, [Identifier.Account 1].contains env3.invoker = false →
       distribute env3 { sCfg with balance := some ⟨7, 50, [.Account 1], tbW2⟩ } =
         .error .notEligible) :=
  ⟨⟨rfl, rfl⟩,
   deposit_replaces_prior_record envA envB sCfg
     { sCfg with balance := some ⟨7, 100, [.Account 0], tbW⟩ }
     { sCfg with balance := some ⟨7, 50, [.Account 1], tbW2⟩ }
     7 7 100 50 [.Account 0] [.Account 1] tbW tbW2
     [TokenCall.xferFrom 7 (.Account 0) (.Contract 99) 100]
     [TokenCall.xferFrom 7 (.Account 1) (.Contract 99) 50]
     rfl rfl⟩

/-- Claim C4: with a pool record present whose depositers do not
contain the invoker, distribute aborts with notEligible; an aborted
call performs no token transfer and leaves every storage slot as it
was. -/
theorem distribute_rejects_non_depositor
    (env : Env) (s : Storage) (bal : DepositBalance)
    (hbal : s.balance = some bal)
    (hni : bal.depositers.contains env.invoker = false) :
    distribute env s = .error .notEligible := by
  have hmem : env.invoker ∉ bal.depositers := by simpa using hni
  simp [distribute, hbal, hmem]

/-- Witness for C4: account 2 is not among the depositers of `balW`. -/
theorem distribute_rejects_non_depositor_w :
    (sW.balance = some balW ∧
     balW.depositers.contains envC.invoker = false) ∧
    distribute envC sW = .error .notEligible :=
  ⟨⟨rfl, rfl⟩, distribute_rejects_non_depositor envC sW balW rfl rfl⟩

/-- Claim C5: a deposit with a negative amount aborts with
invalidAmount.  The check is the first statement of the entry point, so
it precedes the token transfer and the storage write, and the aborted
call leaves the pool record and all balances untouched. -/
theorem deposit_rejects_negative
    (env : Env) (s : Storage) (t : Bytes32) (a : Int)
    (d : List Identifier) (tb : TimeBound) (h : a < 0) :
    deposit env s t a d tb = .error .invalidAmount := by
  simp [deposit, h]

/-- Witness for C5 at amount -1. -/
theorem deposit_rejects_negative_w :
    ((-1 : Int) < 0) ∧
    deposit envA sCfg 7 (-1) [.Account 0] tbW = .error .invalidAmount :=
  ⟨by decide,
   deposit_rejects_negative envA sCfg 7 (-1) [.Account 0] tbW (by decide)⟩

/-- Claim C6: when the token collaborator rejects the inbound transfer
of a non-negative deposit, the whole call aborts with transferFailed;
since the Balance write comes after the transfer, no pool-record write
occurs and the stored record is exactly what it was before the call. -/
theorem deposit_transfer_rejected_atomic
    (env : Env) (s : Storage) (t ct : Bytes32) (a : Int)
    (d : List Identifier) (tb : TimeBound)
    (h0 : 0 ≤ a) (htok : s.token = some ct)
    (hrej : env.tokenAccepts
        (TokenCall.xferFrom ct env.invoker (get_contract_id env) a) = false) :
    deposit env s t a d tb = .error .transferFailed := by
  have hneg : ¬a < 0 := not_lt.mpr h0
  simp [deposit, deposit_to_contract, get_token, hneg, htok, hrej]

/-- Witness for C6: `envRej` rejects every transfer. -/
theorem deposit_transfer_rejected_atomic_w :
    ((0 : Int) ≤ 100 ∧ sCfg.token = some 7 ∧
     envRej.tokenAccepts
       (TokenCall.xferFrom 7 envRej.invoker (get_contract_id envRej) 100) = false) ∧
    deposit envRej sCfg 7 100 [.Account 0] tbW = .error .transferFailed :=
  ⟨⟨by decide, rfl, rfl⟩,
   deposit_transfer_rejected_atomic envRej sCfg 7 7 100 [.Account 0] tbW
     (by decide) rfl rfl⟩

/-- Claim C7: after any successful deposit, the stored pool record
holds exactly the four values passed to the call (token, amount,
depositers, time bound). -/
theorem deposit_roundtrip
    (env : Env) (s s' : Storage) (t : Bytes32) (a : Int)
    (d : List Identifier) (tb : TimeBound) (cs : List TokenCall)
    (h : deposit env s t a d tb = .ok (s', cs)) :
    s'.balance = some ⟨t, a, d, tb⟩ := by
  obtain ⟨hs, -⟩ := deposit_ok_inv env s s' t a d tb cs h
  subst hs
  rfl

/-- Witness for C7: a concrete deposit whose stored record returns the
call arguments verbatim (note the token ARGUMENT 8 is stored even
though the configured token is 7). -/
theorem deposit_roundtrip_w :
    (deposit envA sCfg 8 100 [.Account 0] tbW =
       .ok ({ sCfg with balance := some ⟨8, 100, [.Account 0], tbW⟩ },
            [TokenCall.xferFrom 7 envA.invoker (get_contract_id envA) 100])) ∧
    ({ sCfg with balance := some ⟨8, 100, [.Account 0], tbW⟩ } : Storage).balance
      = some ⟨8, 100, [.Account 0], tbW⟩ :=
  ⟨rfl,
   deposit_roundtrip envA sCfg
     { sCfg with balance := some ⟨8, 100, [.Account 0], tbW⟩ }
     8 100 [.Account 0] tbW
     [TokenCall.xferFrom 7 envA.invoker (get_contract_id envA) 100] rfl⟩

/-- The pool record `bal` with its time bound replaced by `tb`. -/
def withTimeBound (bal : DepositBalance) (tb : TimeBound) : DepositBalance :=
  { bal with time_bound := tb }

/-- Claim C8: distribute consults neither the ledger timestamp, nor the
stored meetup date, nor the pool record's time bound.  For EVERY
timestamp `ts`, meetup date `md` and time bound `tb`, an eligible
invoker's call succeeds with the same removed-record state and the same
single transfer of the whole amount — time never changes the
outcome. -/
theorem distribute_ignores_time
    (env : Env) (s : Storage) (bal : DepositBalance) (ct : Bytes32)
    (ts : Nat) (md : Option Nat) (tb : TimeBound)
    (helig : bal.depositers.contains env.invoker = true)
    (hacc : env.tokenAccepts (TokenCall.xfer ct env.invoker bal.amount) = true) :
    distribute { env with timestamp := ts }
        { s with meetupDate := md, token := some ct,
                 balance := some (withTimeBound bal tb) } =
      .ok ({ s with meetupDate := md, token := some ct, balance := none },
           [TokenCall.xfer ct env.invoker bal.amount]) := by
  have hmem : env.invoker ∈ bal.depositers := by simpa using helig
  simp [distribute, distribute_from_contract_to_account, get_token,
        withTimeBound, hmem, hacc]

/-- Witness for C8: a scrambled timestamp (123), meetup date (999) and
time bound (`tbW2`) leave the outcome of an eligible claim
unchanged. -/
theorem distribute_ignores_time_w :
    (balW.depositers.contains envA.invoker = true ∧
     envA.tokenAccepts (TokenCall.xfer 7 envA.invoker balW.amount) = true) ∧
    distribute { envA with timestamp := 123 }
        { sCfg with meetupDate := some 999, token := some 7,
                    balance := some (withTimeBound balW tbW2) } =
      .ok ({ sCfg with meetupDate := some 999, token := some 7, balance := none },
           [TokenCall.xfer 7 envA.invoker balW.amount]) :=
  ⟨⟨rfl, rfl⟩,
   distribute_ignores_time envA sCfg balW 7 123 (some 999) tbW2 rfl rfl⟩

/-- Claim C9: every token call either operation emits goes to the
CONFIGURED token (the Token slot written at setup), never to the token
argument of deposit and never to the token field of the stored pool
record. -/
theorem transfers_use_configured_token
    (env : Env) (s : Storage) (ct : Bytes32)
    (htok : s.token = some ct) :
    (∀ t a d tb s' cs, deposit env s t a d tb = .ok (s', cs) →
        cs = [TokenCall.xferFrom ct env.invoker (get_contract_id env) a]) ∧
    (∀ bal s' cs, s.balance = some bal → distribute env s = .ok (s', cs) →
        cs = [TokenCall.xfer ct env.invoker bal.amount]) := by
  constructor
  · intro t a d tb s' cs h
    obtain ⟨-, ct2, htok2, hcs⟩ := deposit_ok_inv env s s' t a d tb cs h
    rw [htok] at htok2
    rw [hcs, Option.some.inj htok2]
  · intro bal s' cs hbal h
    obtain ⟨bal2, ct2, hbal2, htok2, -, -, hcs⟩ := distribute_ok_inv env s s' cs h
    rw [htok] at htok2
    rw [hbal] at hbal2
    rw [hcs, Option.some.inj htok2, Option.some.inj hbal2]

/-- A storage whose configured token (7) differs from the token
recorded inside its pool record (9). -/
def sMix : Storage :=
  { admin := some (.Account 9), started := some 1, meetupDate := some 50,
    depositFee := some 2, token := some 7,
    balance := some ⟨9, 100, [.Account 0], tbW⟩ }

/-- Witness for C9 on `sMix`: the configured token is 7, the record's
token is 9, and a concrete distribute still emits its transfer on token
7; the conclusion also covers every deposit, whatever token argument it
passes. -/
theorem transfers_use_configured_token_w :
    (sMix.token = some 7 ∧
     distribute envA sMix =
       .ok ({ sMix with balance := none }, [TokenCall.xfer 7 envA.invoker 100])) ∧
    ((∀ t a d tb s' cs, deposit envA sMix t a d tb = .ok (s', cs) →
        cs = [TokenCall.xferFrom 7 envA.invoker (get_contract_id envA) a]) ∧
     (∀ bal s' cs, sMix.balance = some bal → distribute envA sMix = .ok (s', cs) →
        cs = [TokenCall.xfer 7 envA.invoker bal.amount])) :=
  ⟨⟨rfl, rfl⟩, transfers_use_configured_token envA sMix 7 rfl⟩

/-- Claim C10: on a storage whose Token slot is absent (setup never
succeeded), a non-negative deposit aborts with the "not initialized"
expectation inside get_token; the abort happens while resolving the
token for the inbound transfer, before the Balance write, so no pool
record is ever created on an unconfigured contract. -/
theorem deposit_on_uninit
    (env : Env) (s : Storage) (t : Bytes32) (a : Int)
    (d : List Identifier) (tb : TimeBound)
    (h0 : 0 ≤ a) (htok : s.token = none) :
    deposit env s t a d tb = .error .notInit := by
  have hneg : ¬a < 0 := not_lt.mpr h0
  simp [deposit, deposit_to_contract, get_token, hneg, htok]

/-- Witness for C10 on the fresh storage. -/
theorem deposit_on_uninit_w :
    ((0 : Int) ≤ 100 ∧ sEmpty.token = none) ∧
    deposit envA sEmpty 7 100 [.Account 0] tbW = .error .notInit :=
  ⟨⟨by decide, rfl⟩,
   deposit_on_uninit envA sEmpty 7 100 [.Account 0] tbW (by decide) rfl⟩

end ProfitDistribution
